import Mathlib

/-!
Verification of the Alatacraft authorization and schema-consistency subsystem.

The definitions below are a shallow embedding of the SQL migration scripts
(`supabase/migrations/*.sql`, plus the unnamed migration documents) and of the
role dispatch in `main.js`.  UUIDs are modelled as `Nat`, SQL `text` as
`String`, `numeric` money amounts as `Nat` (whole rupiah), and the
`numeric(2,1)` rating column as tenths (`48` stands for `4.8`).  Row-level
security policies are permissive and OR-combined, as in PostgreSQL.
-/

namespace Alatacraft

/-! ## Data model (from the migration DDL) -/

/-- A row of `public.profiles` in the revisions where `role` is `text`
(migrations 20250120120002, 20250120120006, 20250120120007). -/
structure Profile where
  id : Nat
  full_name : Option String := none
  role : String := "user"
deriving DecidableEq

/-- A row of `public.orders` (fields relevant to the policies). -/
structure Order where
  id : Nat
  user_id : Nat
deriving DecidableEq

/-- A row of `public.order_items`. -/
structure OrderItem where
  id : Nat
  order_id : Nat
  product_id : Nat
  quantity : Nat
  price : Nat
deriving DecidableEq

/-- A row of `public.categories`. -/
structure Category where
  id : Nat
  name : String
  slug : String
  description : Option String := none
deriving DecidableEq

/-- A row of `public.products` (20250120120007 shape: `image_urls text[]`,
`stock integer`, `rating numeric(2,1)` stored here in tenths,
`category_id uuid` nullable). -/
structure Product where
  id : Nat
  name : String
  description : Option String := none
  price : Nat
  image_urls : List String := []
  stock : Nat := 0
  ratingTenths : Nat := 0
  category_id : Option Nat := none
deriving DecidableEq

/-- PostgreSQL error conditions the scripts can raise, plus the policy-denial
outcome (`Forbidden`) of the policy evaluator. -/
inductive DbError where
  | Forbidden
  | NotFound
  | DuplicateObject
  | ForeignKeyViolation
  | InvalidTextRepresentation
  | NoUniqueConflictTarget
deriving DecidableEq

/-! ## Policy evaluator for orders and order items
(migration 20250120120009_enable_rls_and_policies.sql) -/

/-- `EXISTS (SELECT 1 FROM profiles WHERE profiles.id = auth.uid() AND
profiles.role = 'admin')` — the admin check used by every admin policy in
migration 20250120120009. -/
def isAdminUid (profiles : List Profile) (uid : Nat) : Bool :=
  profiles.any (fun p => p.id == uid && p.role == "admin")

/-- USING clause of policy `"Users can view their own orders."` :
`auth.uid() = user_id`. -/
def ordersViewOwnUsing (uid : Nat) (o : Order) : Bool :=
  uid == o.user_id

/-- A SELECT on an `orders` row is allowed when any permissive policy
applicable to SELECT grants it: `"Users can view their own orders."` (FOR
SELECT) or `"Admins can manage all orders."` (FOR ALL). -/
def ordersSelectAllowed (profiles : List Profile) (uid : Nat) (o : Order) : Bool :=
  ordersViewOwnUsing uid o || isAdminUid profiles uid

/-- Read of an order row by caller `uid`: the row is returned when the policy
set allows the SELECT, and the operation is denied with `Forbidden` otherwise. -/
def readOrder (profiles : List Profile) (uid : Nat) (o : Order) : Except DbError Order :=
  if ordersSelectAllowed profiles uid o then .ok o else .error .Forbidden

/-- USING clause of policy `"Users can view their own order items."` :
`EXISTS (SELECT 1 FROM orders WHERE orders.id = order_items.order_id AND
orders.user_id = auth.uid())`. -/
def orderItemsViewOwnUsing (orders : List Order) (uid : Nat) (it : OrderItem) : Bool :=
  orders.any (fun o => o.id == it.order_id && o.user_id == uid)

/-- A SELECT on an `order_items` row is allowed via
`"Users can view their own order items."` (FOR SELECT) or
`"Admins can manage all order items."` (FOR ALL). -/
def orderItemsSelectAllowed (profiles : List Profile) (orders : List Order)
    (uid : Nat) (it : OrderItem) : Bool :=
  orderItemsViewOwnUsing orders uid it || isAdminUid profiles uid

/-- Read of an order-item row by caller `uid`, denied with `Forbidden` when no
policy grants the SELECT. -/
def readOrderItem (profiles : List Profile) (orders : List Order)
    (uid : Nat) (it : OrderItem) : Except DbError OrderItem :=
  if orderItemsSelectAllowed profiles orders uid it then .ok it else .error .Forbidden

/-- Primary-key uniqueness of `profiles.id`. -/
def profileIdsUnique (profiles : List Profile) : Prop :=
  List.Pairwise (fun a b => a.id ≠ b.id) profiles

/-- Primary-key uniqueness of `orders.id`. -/
def orderIdsUnique (orders : List Order) : Prop :=
  List.Pairwise (fun a b => a.id ≠ b.id) orders

/-! ## Profile policies across the migration chain (claims C3, C4) -/

/-- The per-operation scope of a `CREATE POLICY` statement. -/
inductive PolicyCmd where
  | select
  | insert
  | update
  | delete
  | all
deriving DecidableEq

/-- Whether a policy command applies to SELECT (`FOR SELECT` or `FOR ALL`). -/
def appliesToSelect : PolicyCmd → Bool
  | .select => true
  | .all => true
  | _ => false

/-- A policy on `public.profiles`.  The USING clause is a predicate over the
current `profiles` store (for admin sub-SELECTs), `auth.uid()`, and the row. -/
structure ProfilesPolicy where
  name : String
  cmd : PolicyCmd
  usingClause : List Profile → Nat → Profile → Bool

/-- `DROP POLICY IF EXISTS n` on profiles. -/
def dropPolicyIfExists (ps : List ProfilesPolicy) (n : String) : List ProfilesPolicy :=
  ps.filter (fun p => !(p.name == n))

/-- `DROP POLICY IF EXISTS` immediately followed by `CREATE POLICY` with the
same name — the re-runnable pattern used by the timestamped migrations. -/
def recreatePolicy (ps : List ProfilesPolicy) (p : ProfilesPolicy) : List ProfilesPolicy :=
  dropPolicyIfExists ps p.name ++ [p]

/-- `"Users can view their own profile"` (no trailing period; created by
20250120120002 and 20250120120006): FOR SELECT USING (auth.uid() = id). -/
def polViewOwnProfile : ProfilesPolicy :=
  ⟨"Users can view their own profile", .select, fun _ uid row => uid == row.id⟩

/-- `"Users can update their own profile"` (no trailing period):
FOR UPDATE USING (auth.uid() = id). -/
def polUpdateOwnProfile : ProfilesPolicy :=
  ⟨"Users can update their own profile", .update, fun _ uid row => uid == row.id⟩

/-- `"Users can view their own profile."` (trailing period; 20250120120009):
FOR SELECT USING (auth.uid() = id). -/
def polViewOwnProfileDot : ProfilesPolicy :=
  ⟨"Users can view their own profile.", .select, fun _ uid row => uid == row.id⟩

/-- `"Users can update their own profile."` (trailing period):
FOR UPDATE USING (auth.uid() = id). -/
def polUpdateOwnProfileDot : ProfilesPolicy :=
  ⟨"Users can update their own profile.", .update, fun _ uid row => uid == row.id⟩

/-- `"Admins can manage all profiles."` (initial-schema document inside the
20250120120002 file): FOR ALL USING ((SELECT role FROM public.profiles WHERE
id = auth.uid()) = 'admin'), the scalar sub-SELECT modelled with `find?`. -/
def polAdminsManageAllProfiles : ProfilesPolicy :=
  ⟨"Admins can manage all profiles.", .all,
    fun profs uid _ => ((profs.find? (fun p => p.id == uid)).map Profile.role) == some "admin"⟩

/-- `"Public profiles are viewable by everyone."` (20250120120007):
FOR SELECT USING (true). -/
def polPublicProfilesViewable : ProfilesPolicy :=
  ⟨"Public profiles are viewable by everyone.", .select, fun _ _ _ => true⟩

/-- `"Users can insert their own profile."` (20250120120007):
FOR INSERT WITH CHECK (auth.uid() = id). -/
def polInsertOwnProfileDot : ProfilesPolicy :=
  ⟨"Users can insert their own profile.", .insert, fun _ uid row => uid == row.id⟩

/-- Profiles-policy DDL of the fix-product-seeding document (first document of
the 20250120120002 file), in statement order. -/
def profilesPolicies20002fix (ps : List ProfilesPolicy) : List ProfilesPolicy :=
  recreatePolicy (recreatePolicy ps polViewOwnProfile) polUpdateOwnProfile

/-- Profiles-policy DDL of the initial-schema document (second document of the
20250120120002 file). -/
def profilesPolicies20002initial (ps : List ProfilesPolicy) : List ProfilesPolicy :=
  recreatePolicy (recreatePolicy (recreatePolicy ps polViewOwnProfileDot)
    polUpdateOwnProfileDot) polAdminsManageAllProfiles

/-- Profiles-policy DDL of migration 20250120120006. -/
def profilesPolicies20006 (ps : List ProfilesPolicy) : List ProfilesPolicy :=
  recreatePolicy (recreatePolicy ps polViewOwnProfile) polUpdateOwnProfile

/-- Profiles-policy DDL of migration 20250120120007. -/
def profilesPolicies20007 (ps : List ProfilesPolicy) : List ProfilesPolicy :=
  recreatePolicy (recreatePolicy (recreatePolicy ps polPublicProfilesViewable)
    polInsertOwnProfileDot) polUpdateOwnProfileDot

/-- Profiles-policy DDL of migration 20250120120009: step 2 drops exactly the
policy names listed in the script (on profiles, the two dotted names), and
step 3 recreates them.  The script does not drop
`"Public profiles are viewable by everyone."` or
`"Admins can manage all profiles."`. -/
def profilesPolicies20009 (ps : List ProfilesPolicy) : List ProfilesPolicy :=
  recreatePolicy (recreatePolicy
    (dropPolicyIfExists (dropPolicyIfExists ps "Users can view their own profile.")
      "Users can update their own profile.")
    polViewOwnProfileDot) polUpdateOwnProfileDot

/-- The profiles policy set after the timestamped migration chain is applied
in order to an empty store. -/
def profilesPoliciesFinal : List ProfilesPolicy :=
  profilesPolicies20009 (profilesPolicies20007 (profilesPolicies20006
    (profilesPolicies20002initial (profilesPolicies20002fix []))))

/-- A SELECT on a profiles row is allowed when some permissive policy
applicable to SELECT grants it. -/
def profilesSelectAllowed (ps : List ProfilesPolicy) (store : List Profile)
    (uid : Nat) (row : Profile) : Bool :=
  ps.any (fun p => appliesToSelect p.cmd && p.usingClause store uid row)

/-! ## Bare CREATE POLICY re-runs (claim C4) -/

/-- A (table, policy name) pair — the key by which `CREATE POLICY` detects a
duplicate. -/
structure PolicyKey where
  table : String
  name : String
deriving DecidableEq

/-- Bare `CREATE POLICY` with no prior `DROP POLICY IF EXISTS`: raises
duplicate_object (42710) when a policy of that name already exists on the
table. -/
def createPolicyBare (st : List PolicyKey) (k : PolicyKey) :
    Except DbError (List PolicyKey) :=
  if st.any (fun q => q == k) then .error .DuplicateObject else .ok (st ++ [k])

/-- The policies the FINAL COMPREHENSIVE SCHEMA FIX script creates with bare
`CREATE POLICY` statements, in script order. -/
def finalComprehensivePolicyKeys : List PolicyKey :=
  [⟨"profiles", "Public profiles are viewable by everyone."⟩,
   ⟨"profiles", "Users can insert their own profile."⟩,
   ⟨"profiles", "Users can update their own profile."⟩,
   ⟨"categories", "Categories are viewable by everyone."⟩,
   ⟨"categories", "Admins can manage categories."⟩,
   ⟨"products", "Products are viewable by everyone."⟩,
   ⟨"products", "Admins can manage products."⟩,
   ⟨"orders", "Users can view their own orders."⟩,
   ⟨"orders", "Users can create orders for themselves."⟩,
   ⟨"orders", "Admins can manage all orders."⟩,
   ⟨"order_items", "Users can view their own order items."⟩,
   ⟨"order_items", "Admins can manage all order items."⟩]

/-- The policy-creating portion of the FINAL COMPREHENSIVE SCHEMA FIX script.
Its `CREATE TABLE IF NOT EXISTS` / `ALTER ... IF NOT EXISTS` steps are no-ops
on a store already at the target state, but each `CREATE POLICY` runs
unguarded. -/
def runFinalComprehensivePolicies (st : List PolicyKey) :
    Except DbError (List PolicyKey) :=
  finalComprehensivePolicyKeys.foldlM createPolicyBare st

/-! ## Seed Loader (claims C5, C7, C8) -/

/-- `SELECT id FROM public.categories WHERE slug = sl` — the scalar lookup the
seed blocks use to resolve category ids. -/
def slugLookup (cats : List Category) (sl : String) : Option Nat :=
  (cats.find? (fun c => c.slug == sl)).map Category.id

/-- One row of `INSERT INTO public.categories ... ON CONFLICT (slug) DO
NOTHING`. -/
def insertCategorySlugDoNothing (cats : List Category) (c : Category) : List Category :=
  if cats.any (fun x => x.slug == c.slug) then cats else cats ++ [c]

/-- The four category rows seeded by migration 20250120120006 (`id` values are
the generated uuids, modelled as consecutive naturals). -/
def categorySeedRows20006 (idBase : Nat) : List Category :=
  [⟨idBase, "Tas", "tas", some "Koleksi tas anyaman eceng gondok"⟩,
   ⟨idBase + 1, "Dekorasi", "dekorasi", some "Hiasan dinding dan dekorasi rumah"⟩,
   ⟨idBase + 2, "Aksesori Rumah", "aksesori-rumah", some "Aksesori fungsional untuk rumah"⟩,
   ⟨idBase + 3, "Premium", "premium", some "Koleksi produk premium dan edisi terbatas"⟩]

/-- The six product rows seeded by migration 20250120120006 (rating kept in
tenths, urls as in the script). -/
def productSeedRows20006 (idBase : Nat)
    (tasId dekorasiId aksesoriId premiumId : Option Nat) : List Product :=
  [⟨idBase, "Tas Tote Premium", some "Tas anyaman eceng gondok dengan handle kulit asli.",
    180000, ["https://img-wrapper.vercel.app/image?url=https://img-wrapper.vercel.app/image?url=https://img-wrapper.vercel.app/image?url=https://placehold.co/300x300/8ea071/ffffff?text=Tas+Tote"],
    20, 48, tasId⟩,
   ⟨idBase + 1, "Alas Meja Natural", some "Alas meja bundar untuk sentuhan alami di ruang makan.",
    95000, ["https://img-wrapper.vercel.app/image?url=https://img-wrapper.vercel.app/image?url=https://img-wrapper.vercel.app/image?url=https://placehold.co/300x300/b4a47e/ffffff?text=Alas+Meja"],
    35, 45, aksesoriId⟩,
   ⟨idBase + 2, "Hiasan Dinding Mandala", some "Hiasan dinding besar dengan pola mandala yang rumit.",
    125000, ["https://img-wrapper.vercel.app/image?url=https://img-wrapper.vercel.app/image?url=https://img-wrapper.vercel.app/image?url=https://placehold.co/300x300/a08d63/ffffff?text=Hiasan+Dinding"],
    15, 47, dekorasiId⟩,
   ⟨idBase + 3, "Tempat Pensil Minimalis", some "Tempat pensil elegan untuk meja kerja Anda.",
    45000, ["https://img-wrapper.vercel.app/image?url=https://img-wrapper.vercel.app/image?url=https://img-wrapper.vercel.app/image?url=https://placehold.co/300x300/708158/ffffff?text=Tempat+Pensil"],
    50, 43, aksesoriId⟩,
   ⟨idBase + 4, "Keranjang Multifungsi", some "Keranjang serbaguna untuk penyimpanan mainan atau laundry.",
    110000, ["https://img-wrapper.vercel.app/image?url=https://img-wrapper.vercel.app/image?url=https://img-wrapper.vercel.app/image?url=https://placehold.co/300x300/c8bea2/ffffff?text=Keranjang"],
    25, 46, aksesoriId⟩,
   ⟨idBase + 5, "Clutch Pesta Elegan", some "Clutch malam yang mewah dan ramah lingkungan.",
    250000, ["https://img-wrapper.vercel.app/image?url=https://img-wrapper.vercel.app/image?url=https://img-wrapper.vercel.app/image?url=https://placehold.co/300x300/f59e0b/ffffff?text=Clutch"],
    10, 49, premiumId⟩]

/-- The seed block (step 10) of migration 20250120120006: upsert the four
categories on slug, resolve their ids, then `DELETE FROM public.products` and
insert the six sample products.  The prior `prods` contents are discarded by
the DELETE, which is why the result does not depend on them. -/
def seedBlock20006 (cats : List Category) (_prods : List Product)
    (catIdBase prodIdBase : Nat) : List Category × List Product :=
  let cats1 := (categorySeedRows20006 catIdBase).foldl insertCategorySlugDoNothing cats
  (cats1, productSeedRows20006 prodIdBase (slugLookup cats1 "tas")
    (slugLookup cats1 "dekorasi") (slugLookup cats1 "aksesori-rumah")
    (slugLookup cats1 "premium"))

/-- A sample operator-entered product row that is not part of any seed. -/
def operatorProduct : Product :=
  ⟨999, "Produk Operator", none, 50000, [], 5, 40, none⟩

/-- The four category rows seeded by migration 20250120120007. -/
def categorySeedRows20007 (idBase : Nat) : List Category :=
  [⟨idBase, "Tas", "tas", some "Koleksi tas anyaman eceng gondok."⟩,
   ⟨idBase + 1, "Dekorasi", "dekorasi", some "Hiasan rumah yang natural dan estetik."⟩,
   ⟨idBase + 2, "Aksesori Rumah", "aksesori-rumah", some "Perlengkapan rumah fungsional."⟩,
   ⟨idBase + 3, "Premium", "premium", some "Koleksi eksklusif dengan detail premium."⟩]

/-- Categories seed of migration 20250120120007: the four-row INSERT with
`ON CONFLICT (slug) DO NOTHING`. -/
def seedCategories20007 (cats : List Category) (idBase : Nat) : List Category :=
  (categorySeedRows20007 idBase).foldl insertCategorySlugDoNothing cats

/-- `INSERT INTO public.categories (name, slug) VALUES (nm, sl) ON CONFLICT
(name) DO UPDATE SET slug = EXCLUDED.slug` — one category upsert of the
Definitive Schema Fix script, keyed by the UNIQUE `name` column. -/
def upsertCategoryByName (cats : List Category) (nm sl : String) (newId : Nat) :
    List Category :=
  if cats.any (fun x => x.name == nm) then
    cats.map (fun x => if x.name == nm then { x with slug := sl } else x)
  else cats ++ [⟨newId, nm, sl, none⟩]

/-- Categories seed of the Definitive Schema Fix script (four upserts keyed by
name). -/
def seedCategoriesByName (cats : List Category) (idBase : Nat) : List Category :=
  upsertCategoryByName (upsertCategoryByName (upsertCategoryByName
    (upsertCategoryByName cats "Tas" "tas" idBase)
    "Dekorasi" "dekorasi" (idBase + 1))
    "Aksesori Rumah" "aksesori-rumah" (idBase + 2))
    "Premium" "premium" (idBase + 3)

/-- Products-table state: whether a unique constraint on `name`
(`products_name_key`) exists, plus the rows. -/
structure ProductsState where
  hasNameUnique : Bool
  rows : List Product
deriving DecidableEq

/-- The DO block of the Definitive Schema Fix script that adds constraint
`products_name_key` only when it is absent. -/
def addNameUniqueIfAbsent (st : ProductsState) : ProductsState :=
  if st.hasNameUnique then st else { st with hasNameUnique := true }

/-- One row of `INSERT ... ON CONFLICT (name) DO NOTHING` (the conflict target
already validated). -/
def insertProductNameDoNothing (rows : List Product) (r : Product) : List Product :=
  if rows.any (fun p => p.name == r.name) then rows else rows ++ [r]

/-- `INSERT INTO public.products ... ON CONFLICT (name) DO NOTHING`:
PostgreSQL rejects the statement (42P10, no unique or exclusion constraint
matching the ON CONFLICT specification) unless a unique constraint on `name`
exists, so the loader fails fast instead of seeding duplicates. -/
def insertProductsOnConflictName (st : ProductsState) (newRows : List Product) :
    Except DbError ProductsState :=
  if st.hasNameUnique then
    .ok { st with rows := newRows.foldl insertProductNameDoNothing st.rows }
  else .error .NoUniqueConflictTarget

/-- The six product rows seeded by the Definitive Schema Fix script. -/
def productSeedRowsDefinitive (idBase : Nat)
    (tasId dekorasiId aksesoriId premiumId : Option Nat) : List Product :=
  productSeedRows20006 idBase tasId dekorasiId aksesoriId premiumId

/-- Products portion of the Definitive Schema Fix script: establish
`products_name_key` if absent, then seed the six sample products with
`ON CONFLICT (name) DO NOTHING` (category ids passed in as resolved by the
preceding category upserts). -/
def definitiveProductSeed (st : ProductsState) (idBase : Nat)
    (tasId dekorasiId aksesoriId premiumId : Option Nat) :
    Except DbError ProductsState :=
  insertProductsOnConflictName (addNameUniqueIfAbsent st)
    (productSeedRowsDefinitive idBase tasId dekorasiId aksesoriId premiumId)

/-- One run of the definitive product seed from an empty products table. -/
def definitiveSeedOnce : Except DbError ProductsState :=
  definitiveProductSeed ⟨false, []⟩ 1 (some 1) (some 2) (some 3) (some 4)

/-- A second run of the definitive product seed on the state the first run
produced. -/
def definitiveSeedTwice : Except DbError ProductsState :=
  definitiveSeedOnce.bind (fun st => definitiveProductSeed st 1 (some 1) (some 2) (some 3) (some 4))

/-- Products seed of migration 20250120120002: `IF NOT EXISTS (SELECT 1 FROM
public.products) THEN INSERT ...` — inserts the sample rows only when the
table is empty. -/
def seedProductsIfEmpty (rows seedRows : List Product) : List Product :=
  if rows.isEmpty then rows ++ seedRows else rows

/-! ## Category foreign key (claim C9) -/

/-- Referential action of a foreign key. -/
inductive FkAction where
  | noAction
  | setNull
  | cascade
deriving DecidableEq

/-- `products_category_id_fkey` as created inline by migration 20250120120002
(`category_id UUID REFERENCES public.categories(id)`): PostgreSQL auto-names
the constraint `products_category_id_fkey` and its referential action is the
default NO ACTION. -/
def inlineCategoryFk : Option FkAction := some .noAction

/-- The guarded `ADD CONSTRAINT products_category_id_fkey ... ON DELETE SET
NULL` of migrations 20250120120006 and 20250120120007: added only when no
constraint of that name exists yet. -/
def addCategoryFkIfAbsent (cur : Option FkAction) (a : FkAction) : Option FkAction :=
  match cur with
  | some x => some x
  | none => some a

/-- The `products_category_id_fkey` action after the timestamped migration
chain runs from an empty store: 20250120120002 creates the products table with
the inline constraint, so the 20250120120006 and 20250120120007 guards skip
their ON DELETE SET NULL version because the constraint name already exists. -/
def composedCategoryFkAction : Option FkAction :=
  addCategoryFkIfAbsent (addCategoryFkIfAbsent inlineCategoryFk .setNull) .setNull

/-- Categories and products together. -/
structure CatalogState where
  categories : List Category
  products : List Product
deriving DecidableEq

/-- `DELETE FROM public.categories WHERE id = cid` under the installed
referential action of `products_category_id_fkey`. -/
def deleteCategory (a : FkAction) (st : CatalogState) (cid : Nat) :
    Except DbError CatalogState :=
  match a with
  | .noAction =>
    if st.products.any (fun p => p.category_id == some cid) then
      .error .ForeignKeyViolation
    else
      .ok { st with categories := st.categories.filter (fun c => !(c.id == cid)) }
  | .setNull =>
    .ok { categories := st.categories.filter (fun c => !(c.id == cid)),
          products := st.products.map (fun p =>
            if p.category_id == some cid then { p with category_id := none } else p) }
  | .cascade =>
    .ok { categories := st.categories.filter (fun c => !(c.id == cid)),
          products := st.products.filter (fun p => !(p.category_id == some cid)) }

/-- The foreign-key invariant: `category_id`, when present, references an
existing Category. -/
def catRefIntact (st : CatalogState) : Prop :=
  ∀ p ∈ st.products, ∀ cid, p.category_id = some cid →
    ∃ c ∈ st.categories, c.id = cid

/-- `INSERT` into products with the foreign key enforced. -/
def insertProductChecked (st : CatalogState) (p : Product) :
    Except DbError CatalogState :=
  match p.category_id with
  | none => .ok { st with products := st.products ++ [p] }
  | some cid =>
    if st.categories.any (fun c => c.id == cid) then
      .ok { st with products := st.products ++ [p] }
    else .error .ForeignKeyViolation

/-- A store with one category and one product referencing it. -/
def c9Store : CatalogState :=
  ⟨[⟨1, "Tas", "tas", none⟩],
   [⟨1, "Tas Tote Premium", none, 180000, [], 20, 48, some 1⟩]⟩

/-! ## Dashboard role dispatch in main.js (claim C10) -/

/-- Role dispatch of the dashboard button click handler in `main.js`:
admin → admin-dashboard.html, user → user-dashboard.html,
mitra → mitra-dashboard.html, anything else → login.html. -/
def dashboardRedirect (role : String) : String :=
  if role == "admin" then "admin-dashboard.html"
  else if role == "user" then "user-dashboard.html"
  else if role == "mitra" then "mitra-dashboard.html"
  else "login.html"

/-! ## Role Model (claim C6) -/

/-- The `public.user_role` enum: ('admin', 'user', 'mitra'). -/
inductive UserRole where
  | admin
  | user
  | mitra
deriving DecidableEq

/-- The valid textual labels of `public.user_role`. -/
def parseUserRole (s : String) : Option UserRole :=
  if s == "admin" then some .admin
  else if s == "user" then some .user
  else if s == "mitra" then some .mitra
  else none

/-- `(x)::public.user_role` on a nullable text value: NULL casts to NULL; a
string that is not an enum label raises invalid_text_representation (22P02). -/
def castToUserRole : Option String → Except DbError (Option UserRole)
  | none => .ok none
  | some s =>
    match parseUserRole s with
    | some r => .ok (some r)
    | none => .error .InvalidTextRepresentation

/-- A `public.profiles` row in the revision where `role` is the enum
`public.user_role` (FINAL COMPREHENSIVE SCHEMA FIX script). -/
structure ProfileRowE where
  id : Nat
  full_name : Option String
  role : UserRole
deriving DecidableEq

/-- `handle_new_user` as defined by the FINAL COMPREHENSIVE SCHEMA FIX script:
`INSERT INTO public.profiles (id, full_name, role) VALUES (new.id,
new.raw_user_meta_data->>'full_name',
COALESCE((new.raw_user_meta_data->>'role')::public.user_role,
'user'::public.user_role))`. -/
def handle_new_user (profiles : List ProfileRowE) (newId : Nat)
    (fullNameMeta roleMeta : Option String) : Except DbError (List ProfileRowE) :=
  match castToUserRole roleMeta with
  | .error e => .error e
  | .ok r => .ok (profiles ++ [⟨newId, fullNameMeta, r.getD .user⟩])

/-! Helper lemmas about uniqueness and the admin check. -/

theorem profile_mem_id_inj {profiles : List Profile} (huniq : profileIdsUnique profiles)
    {p q : Profile} (hp : p ∈ profiles) (hq : q ∈ profiles) (h : p.id = q.id) : p = q := by
  by_contra hne
  exact List.Pairwise.forall (fun a b hab => Ne.symm hab) huniq hp hq hne h

theorem order_mem_id_inj {orders : List Order} (huniq : orderIdsUnique orders)
    {o o' : Order} (ho : o ∈ orders) (ho' : o' ∈ orders) (h : o.id = o'.id) : o = o' := by
  by_contra hne
  exact List.Pairwise.forall (fun a b hab => Ne.symm hab) huniq ho ho' hne h

theorem isAdminUid_eq_true_iff (profiles : List Profile) (P : Profile)
    (hmem : P ∈ profiles) (huniq : profileIdsUnique profiles) :
    isAdminUid profiles P.id = true ↔ P.role = "admin" := by
  unfold isAdminUid
  rw [List.any_eq_true]
  constructor
  · rintro ⟨q, hq, hqid⟩
    rw [Bool.and_eq_true, beq_iff_eq, beq_iff_eq] at hqid
    obtain ⟨hid, hrole⟩ := hqid
    have hqP : q = P := profile_mem_id_inj huniq hq hmem hid
    rw [← hqP]; exact hrole
  · intro hrole
    exact ⟨P, hmem, by rw [Bool.and_eq_true, beq_iff_eq, beq_iff_eq]; exact ⟨rfl, hrole⟩⟩

/-- Claim C1: for every caller profile P and every order O, a read of O
succeeds if and only if P.id equals O.user_id or P has role admin; otherwise
it fails with Forbidden. -/
theorem c1_order_read_iff_owner_or_admin (profiles : List Profile) (P : Profile)
    (o : Order) (hmem : P ∈ profiles) (huniq : profileIdsUnique profiles) :
    (readOrder profiles P.id o = .ok o ↔ (P.id = o.user_id ∨ P.role = "admin"))
    ∧ (¬(P.id = o.user_id ∨ P.role = "admin") →
        readOrder profiles P.id o = .error .Forbidden) := by
  have hcond : (ordersSelectAllowed profiles P.id o = true) ↔
      (P.id = o.user_id ∨ P.role = "admin") := by
    unfold ordersSelectAllowed ordersViewOwnUsing
    rw [Bool.or_eq_true, beq_iff_eq, isAdminUid_eq_true_iff profiles P hmem huniq]
  refine ⟨⟨?_, ?_⟩, ?_⟩
  · intro h
    apply hcond.mp
    by_contra hb
    unfold readOrder at h
    rw [if_neg hb] at h
    exact Except.noConfusion h
  · intro h
    unfold readOrder
    rw [if_pos (hcond.mpr h)]
  · intro h
    unfold readOrder
    rw [if_neg (fun hb => h (hcond.mp hb))]

theorem c1_witness :
    readOrder [⟨1, none, "user"⟩] 1 ⟨10, 1⟩ = .ok ⟨10, 1⟩ :=
  (c1_order_read_iff_owner_or_admin [⟨1, none, "user"⟩] ⟨1, none, "user"⟩ ⟨10, 1⟩
    (by simp) (by simp [profileIdsUnique])).1.mpr (Or.inl rfl)

/-- Claim C2: for every caller and every order item I belonging to order O, a
read of I succeeds if and only if a read of O would succeed for that same
caller (ownership resolved via the single lookup OrderItem → Order.user_id,
plus the admin override). -/
theorem c2_order_item_read_matches_parent_order (profiles : List Profile)
    (orders : List Order) (uid : Nat) (O : Order) (it : OrderItem)
    (hO : O ∈ orders) (huniq : orderIdsUnique orders)
    (hbelongs : it.order_id = O.id) :
    (readOrderItem profiles orders uid it = .ok it ↔ readOrder profiles uid O = .ok O)
    ∧ (readOrderItem profiles orders uid it = .error .Forbidden ↔
        readOrder profiles uid O = .error .Forbidden) := by
  have husing : orderItemsViewOwnUsing orders uid it = true ↔ uid = O.user_id := by
    unfold orderItemsViewOwnUsing
    rw [List.any_eq_true]
    constructor
    · rintro ⟨o, ho, hco⟩
      rw [Bool.and_eq_true, beq_iff_eq, beq_iff_eq] at hco
      obtain ⟨h1, h2⟩ := hco
      have hoO : o = O := order_mem_id_inj huniq ho hO (h1.trans hbelongs)
      rw [← hoO]
      exact h2.symm
    · intro h
      refine ⟨O, hO, ?_⟩
      rw [Bool.and_eq_true, beq_iff_eq, beq_iff_eq]
      exact ⟨hbelongs.symm, h.symm⟩
  have hallow : orderItemsSelectAllowed profiles orders uid it =
      ordersSelectAllowed profiles uid O := by
    unfold orderItemsSelectAllowed ordersSelectAllowed
    have : orderItemsViewOwnUsing orders uid it = ordersViewOwnUsing uid O := by
      rw [Bool.eq_iff_iff]
      unfold ordersViewOwnUsing
      rw [beq_iff_eq]
      exact husing
    rw [this]
  unfold readOrderItem readOrder
  rw [hallow]
  by_cases hb : ordersSelectAllowed profiles uid O = true
  · rw [if_pos hb, if_pos hb]
    exact ⟨by simp, by simp⟩
  · rw [if_neg hb, if_neg hb]
    exact ⟨by simp, by simp⟩

theorem c2_witness :
    readOrderItem [] [⟨5, 2⟩] 2 ⟨1, 5, 3, 1, 100⟩ = .ok ⟨1, 5, 3, 1, 100⟩ :=
  (c2_order_item_read_matches_parent_order [] [⟨5, 2⟩] 2 ⟨5, 2⟩ ⟨1, 5, 3, 1, 100⟩
    (by simp) (by simp [orderIdsUnique]) rfl).1.mpr rfl

/-- The final profiles policy set, evaluated to its member list.  The
`"Public profiles are viewable by everyone."` and
`"Admins can manage all profiles."` policies survive migration
20250120120009 because its DROP list does not name them. -/
theorem profilesPoliciesFinal_eval :
    profilesPoliciesFinal =
      [polAdminsManageAllProfiles, polViewOwnProfile, polUpdateOwnProfile,
       polPublicProfilesViewable, polInsertOwnProfileDot,
       polViewOwnProfileDot, polUpdateOwnProfileDot] := rfl

/-- Claim C3 is false on the code: a non-admin caller with id 1 is allowed to
read the profile row with id 2, because the unconditional
`"Public profiles are viewable by everyone."` policy survives in the final
policy set. -/
theorem c3_counterexample :
    profilesSelectAllowed profilesPoliciesFinal
      [⟨1, none, "user"⟩, ⟨2, none, "user"⟩] 1 ⟨2, none, "user"⟩ = true
    ∧ (1 : Nat) ≠ 2 := by
  exact ⟨rfl, by decide⟩

/-- Claim C3 (amended): in the final composed policy set, a read of any
profile row is allowed to every caller — migration 20250120120009 drops only
its own policy names, so the `"Public profiles are viewable by everyone."`
policy of 20250120120007 survives and grants SELECT unconditionally. -/
theorem c3_profile_read_open_to_all (store : List Profile) (uid : Nat)
    (row : Profile) :
    profilesSelectAllowed profilesPoliciesFinal store uid row = true := by
  rw [profilesPoliciesFinal_eval]
  unfold profilesSelectAllowed
  rw [List.any_eq_true]
  exact ⟨polPublicProfilesViewable, by simp,
    by simp [polPublicProfilesViewable, appliesToSelect]⟩

/-- Claim C4 fails on the code: the FINAL COMPREHENSIVE SCHEMA FIX script
creates its policies with bare CREATE POLICY statements, so the second run
against a store already holding them raises duplicate_object instead of being
a no-op — contradicting the claim and the script's own header. -/
theorem c4_second_run_raises_duplicate_object :
    (runFinalComprehensivePolicies []).bind runFinalComprehensivePolicies =
      .error .DuplicateObject := by
  rfl

/-- Claim C10: for every signed-in profile whose role is none of admin, user
or mitra, the dashboard button handler navigates to login.html. -/
theorem c10_unknown_role_routes_to_login (role : String)
    (h1 : role ≠ "admin") (h2 : role ≠ "user") (h3 : role ≠ "mitra") :
    dashboardRedirect role = "login.html" := by
  unfold dashboardRedirect
  rw [if_neg (by simp [h1]), if_neg (by simp [h2]), if_neg (by simp [h3])]

theorem c10_witness : dashboardRedirect "superadmin" = "login.html" :=
  c10_unknown_role_routes_to_login "superadmin" (by decide) (by decide) (by decide)

/-- Claim C6 is false on the code: for a requested role that is not a valid
user_role label, handle_new_user raises invalid_text_representation instead of
creating a Profile with role user. -/
theorem c6_counterexample :
    handle_new_user [] 7 none (some "superadmin") = .error .InvalidTextRepresentation
    ∧ handle_new_user [] 7 none (some "superadmin") ≠ .ok [⟨7, none, .user⟩] := by
  refine ⟨rfl, fun h => ?_⟩
  rw [show handle_new_user [] 7 none (some "superadmin") =
    .error .InvalidTextRepresentation from rfl] at h
  exact Except.noConfusion h

/-- Claim C6 (amended): for every identity created with a requested role,
exactly one Profile is appended, whose role equals the requested role when it
is one of admin, user or mitra, and equals user when the requested role is
absent; when the requested role is present but not a valid user_role label,
the enum cast fails and no Profile is created. -/
theorem c6_handle_new_user_role_assignment (profiles : List ProfileRowE)
    (newId : Nat) (fn : Option String) :
    handle_new_user profiles newId fn none = .ok (profiles ++ [⟨newId, fn, .user⟩])
    ∧ (∀ s r, parseUserRole s = some r →
        handle_new_user profiles newId fn (some s) = .ok (profiles ++ [⟨newId, fn, r⟩]))
    ∧ (∀ s, parseUserRole s = none →
        handle_new_user profiles newId fn (some s) = .error .InvalidTextRepresentation) := by
  refine ⟨rfl, ?_, ?_⟩
  · intro s r h
    unfold handle_new_user
    simp only [castToUserRole, h, Option.getD]
  · intro s h
    unfold handle_new_user
    simp only [castToUserRole, h]

theorem c6_witness :
    handle_new_user [] 1 none none = .ok [⟨1, none, .user⟩]
    ∧ handle_new_user [] 1 none (some "mitra") = .ok [⟨1, none, .mitra⟩]
    ∧ handle_new_user [] 1 none (some "boss") = .error .InvalidTextRepresentation := by
  have h := c6_handle_new_user_role_assignment [] 1 none
  exact ⟨h.1, h.2.1 "mitra" .mitra rfl, h.2.2 "boss" rfl⟩

/-- Claim C5 fails on the code: the seed block of migration 20250120120006
runs `DELETE FROM public.products` before re-inserting the sample rows, so an
operator-entered product row present before the steady-state seed step is
gone afterwards — contradicting the claim and the script's own
"without deleting existing data" description. -/
theorem c5_seed_block_deletes_operator_row :
    operatorProduct ∈ ([operatorProduct] : List Product)
    ∧ operatorProduct ∉ (seedBlock20006 [] [operatorProduct] 1 10).2 := by
  refine ⟨by simp, ?_⟩
  decide

/-- Claim C8: a second run of the product seed step produces no duplicate row
for an already-seeded name such as Tas Tote Premium, and when the uniqueness
of product names has not been established beforehand the loader fails fast
with the missing-conflict-target error instead of silently seeding
duplicates.  The 20250120120002 variant guards the whole insert on the table
being empty and is likewise re-run safe. -/
theorem c8_product_seed_reruns_safely :
    (∀ st newRows, st.hasNameUnique = false →
        insertProductsOnConflictName st newRows = .error .NoUniqueConflictTarget)
    ∧ (∀ rows seedRows,
        seedProductsIfEmpty (seedProductsIfEmpty rows seedRows) seedRows =
          seedProductsIfEmpty rows seedRows)
    ∧ definitiveSeedTwice = definitiveSeedOnce
    ∧ definitiveSeedOnce.map
        (fun s => s.rows.countP (fun p => p.name == "Tas Tote Premium")) = .ok 1 := by
  refine ⟨?_, ?_, rfl, rfl⟩
  · intro st newRows h
    unfold insertProductsOnConflictName
    simp [h]
  · intro rows seedRows
    cases rows with
    | nil =>
      cases seedRows with
      | nil => rfl
      | cons a t => simp [seedProductsIfEmpty]
    | cons a t => simp [seedProductsIfEmpty]

theorem c8_witness :
    insertProductsOnConflictName ⟨false, []⟩ [] = .error .NoUniqueConflictTarget :=
  c8_product_seed_reruns_safely.1 ⟨false, []⟩ [] rfl

/-! Helper lemmas for the category seed steps (claim C7). -/

theorem insertCategorySlugDoNothing_noop (cats : List Category) (c : Category)
    (h : cats.any (fun x => x.slug == c.slug) = true) :
    insertCategorySlugDoNothing cats c = cats := by
  unfold insertCategorySlugDoNothing
  rw [if_pos h]

theorem insertCategorySlugDoNothing_establishes (cats : List Category) (c : Category) :
    (insertCategorySlugDoNothing cats c).any (fun x => x.slug == c.slug) = true := by
  unfold insertCategorySlugDoNothing
  by_cases h : cats.any (fun x => x.slug == c.slug) = true
  · rw [if_pos h]; exact h
  · rw [if_neg h, List.any_append]
    simp

theorem insertCategorySlugDoNothing_preserves (cats : List Category) (c : Category)
    (f : Category → Bool) (h : cats.any f = true) :
    (insertCategorySlugDoNothing cats c).any f = true := by
  unfold insertCategorySlugDoNothing
  by_cases hb : cats.any (fun x => x.slug == c.slug) = true
  · rw [if_pos hb]; exact h
  · rw [if_neg hb, List.any_append, h]
    rfl

theorem foldl_insert_preserves (rows : List Category) (cats : List Category)
    (f : Category → Bool) (h : cats.any f = true) :
    (rows.foldl insertCategorySlugDoNothing cats).any f = true := by
  induction rows generalizing cats with
  | nil => exact h
  | cons a t ih => exact ih _ (insertCategorySlugDoNothing_preserves cats a f h)

theorem foldl_insert_establishes (cats : List Category) (rows : List Category)
    (r : Category) (hr : r ∈ rows) :
    (rows.foldl insertCategorySlugDoNothing cats).any (fun x => x.slug == r.slug) = true := by
  induction rows generalizing cats with
  | nil => cases hr
  | cons a t ih =>
    simp only [List.foldl]
    rcases List.mem_cons.mp hr with h | h
    · subst h
      exact foldl_insert_preserves t _ _ (insertCategorySlugDoNothing_establishes cats r)
    · exact ih _ h

theorem foldl_insert_noop (cats : List Category) (rows : List Category)
    (h : ∀ r ∈ rows, cats.any (fun x => x.slug == r.slug) = true) :
    rows.foldl insertCategorySlugDoNothing cats = cats := by
  induction rows with
  | nil => rfl
  | cons r t ih =>
    simp only [List.foldl]
    rw [insertCategorySlugDoNothing_noop cats r (h r (List.mem_cons_self r t))]
    exact ih (fun q hq => h q (List.mem_cons_of_mem r hq))

theorem list_map_id_of_mem {α : Type} {l : List α} {f : α → α}
    (h : ∀ x ∈ l, f x = x) : l.map f = l := by
  induction l with
  | nil => rfl
  | cons a t ih =>
    simp only [List.map_cons]
    rw [h a (List.mem_cons_self a t), ih (fun x hx => h x (List.mem_cons_of_mem a hx))]

theorem upsertByName_preserves_name_any (cats : List Category) (nm' sl' : String)
    (newId : Nat) (nm : String) (h : cats.any (fun x => x.name == nm) = true) :
    (upsertCategoryByName cats nm' sl' newId).any (fun x => x.name == nm) = true := by
  unfold upsertCategoryByName
  by_cases hb : cats.any (fun x => x.name == nm') = true
  · rw [if_pos hb, List.any_map]
    have hfn : ((fun x => x.name == nm) ∘
        fun (x : Category) => if x.name == nm' then { x with slug := sl' } else x) =
        fun x => x.name == nm := by
      funext x
      by_cases hx : (x.name == nm') = true
      · simp only [Function.comp_apply, if_pos hx]
      · simp only [Function.comp_apply, if_neg hx]
    rw [hfn]; exact h
  · rw [if_neg hb, List.any_append, h]
    rfl

theorem upsertByName_establishes_name (cats : List Category) (nm sl : String)
    (newId : Nat) :
    (upsertCategoryByName cats nm sl newId).any (fun x => x.name == nm) = true := by
  unfold upsertCategoryByName
  by_cases hb : cats.any (fun x => x.name == nm) = true
  · rw [if_pos hb, List.any_map, List.any_eq_true]
    rw [List.any_eq_true] at hb
    obtain ⟨x, hx, hxn⟩ := hb
    refine ⟨x, hx, ?_⟩
    simp only [Function.comp_apply, if_pos hxn]
    exact hxn
  · rw [if_neg hb, List.any_append]
    have h2 : (List.any [(⟨newId, nm, sl, none⟩ : Category)]
        fun x => x.name == nm) = true := by simp
    rw [h2]
    exact Bool.or_true _

theorem upsertByName_establishes_slug (cats : List Category) (nm sl : String)
    (newId : Nat) :
    ∀ x ∈ upsertCategoryByName cats nm sl newId, x.name = nm → x.slug = sl := by
  unfold upsertCategoryByName
  by_cases hb : cats.any (fun x => x.name == nm) = true
  · rw [if_pos hb]
    intro y hy hyn
    rw [List.mem_map] at hy
    obtain ⟨x, hx, hfx⟩ := hy
    by_cases hxn : (x.name == nm) = true
    · rw [if_pos hxn] at hfx
      rw [← hfx]
    · rw [if_neg hxn] at hfx
      subst hfx
      exact absurd (beq_iff_eq.mpr hyn) hxn
  · rw [if_neg hb]
    intro y hy hyn
    rcases List.mem_append.mp hy with hmem | hmem
    · have hany : (cats.any fun x => x.name == nm) = true :=
        List.any_eq_true.mpr ⟨y, hmem, beq_iff_eq.mpr hyn⟩
      exact absurd hany hb
    · rw [List.mem_singleton] at hmem
      subst hmem
      rfl

theorem upsertByName_preserves_slug (cats : List Category) (nm sl nm' sl' : String)
    (newId : Nat) (hne : nm' ≠ nm)
    (h : ∀ x ∈ cats, x.name = nm → x.slug = sl) :
    ∀ x ∈ upsertCategoryByName cats nm' sl' newId, x.name = nm → x.slug = sl := by
  unfold upsertCategoryByName
  by_cases hb : cats.any (fun x => x.name == nm') = true
  · rw [if_pos hb]
    intro y hy hyn
    rw [List.mem_map] at hy
    obtain ⟨x, hx, hfx⟩ := hy
    by_cases hxn : (x.name == nm') = true
    · rw [if_pos hxn] at hfx
      exfalso
      apply hne
      rw [← hfx] at hyn
      rw [← beq_iff_eq.mp hxn]
      exact hyn
    · rw [if_neg hxn] at hfx
      subst hfx
      exact h x hx hyn
  · rw [if_neg hb]
    intro y hy hyn
    rcases List.mem_append.mp hy with hmem | hmem
    · exact h y hmem hyn
    · rw [List.mem_singleton] at hmem
      subst hmem
      exact absurd hyn hne

theorem upsertByName_noop (cats : List Category) (nm sl : String) (newId : Nat)
    (hpres : cats.any (fun x => x.name == nm) = true)
    (hfix : ∀ x ∈ cats, x.name = nm → x.slug = sl) :
    upsertCategoryByName cats nm sl newId = cats := by
  unfold upsertCategoryByName
  rw [if_pos hpres]
  apply list_map_id_of_mem
  intro x hx
  by_cases hxn : (x.name == nm) = true
  · rw [if_pos hxn]
    have hs : x.slug = sl := hfix x hx (beq_iff_eq.mp hxn)
    rw [← hs]
  · rw [if_neg hxn]

/-- Claim C7: running the category seed step twice leaves exactly one row per
distinct slug.  Both observed variants are second-run no-ops on the store: the
20250120120007 `ON CONFLICT (slug) DO NOTHING` seed and the Definitive Schema
Fix `ON CONFLICT (name) DO UPDATE SET slug = EXCLUDED.slug` seed (whose update
rewrites the slug with the identical value), and from an empty store two runs
leave exactly one row for each seeded slug. -/
theorem c7_category_seed_idempotent :
    (∀ cats n1 n2, seedCategories20007 (seedCategories20007 cats n1) n2 =
        seedCategories20007 cats n1)
    ∧ (∀ cats m1 m2, seedCategoriesByName (seedCategoriesByName cats m1) m2 =
        seedCategoriesByName cats m1)
    ∧ (List.all ["tas", "dekorasi", "aksesori-rumah", "premium"] (fun sl =>
        (seedCategories20007 (seedCategories20007 [] 0) 4).countP
          (fun c => c.slug == sl) == 1)) = true := by
  refine ⟨?_, ?_, by decide⟩
  · intro cats n1 n2
    unfold seedCategories20007
    apply foldl_insert_noop
    intro r hr
    simp only [categorySeedRows20007, List.mem_cons, List.not_mem_nil, or_false] at hr
    rcases hr with h | h | h | h
    all_goals subst h
    · exact foldl_insert_establishes cats (categorySeedRows20007 n1)
        ⟨n1, "Tas", "tas", some "Koleksi tas anyaman eceng gondok."⟩
        (by simp [categorySeedRows20007])
    · exact foldl_insert_establishes cats (categorySeedRows20007 n1)
        ⟨n1 + 1, "Dekorasi", "dekorasi", some "Hiasan rumah yang natural dan estetik."⟩
        (by simp [categorySeedRows20007])
    · exact foldl_insert_establishes cats (categorySeedRows20007 n1)
        ⟨n1 + 2, "Aksesori Rumah", "aksesori-rumah", some "Perlengkapan rumah fungsional."⟩
        (by simp [categorySeedRows20007])
    · exact foldl_insert_establishes cats (categorySeedRows20007 n1)
        ⟨n1 + 3, "Premium", "premium", some "Koleksi eksklusif dengan detail premium."⟩
        (by simp [categorySeedRows20007])
  · intro cats m1 m2
    have hpresT := upsertByName_establishes_name cats "Tas" "tas" m1
    have hfixT := upsertByName_establishes_slug cats "Tas" "tas" m1
    have hpresD := upsertByName_establishes_name
      (upsertCategoryByName cats "Tas" "tas" m1) "Dekorasi" "dekorasi" (m1 + 1)
    have hfixD := upsertByName_establishes_slug
      (upsertCategoryByName cats "Tas" "tas" m1) "Dekorasi" "dekorasi" (m1 + 1)
    have hpresA := upsertByName_establishes_name
      (upsertCategoryByName (upsertCategoryByName cats "Tas" "tas" m1)
        "Dekorasi" "dekorasi" (m1 + 1)) "Aksesori Rumah" "aksesori-rumah" (m1 + 2)
    have hfixA := upsertByName_establishes_slug
      (upsertCategoryByName (upsertCategoryByName cats "Tas" "tas" m1)
        "Dekorasi" "dekorasi" (m1 + 1)) "Aksesori Rumah" "aksesori-rumah" (m1 + 2)
    have hpresP := upsertByName_establishes_name
      (upsertCategoryByName (upsertCategoryByName (upsertCategoryByName cats
        "Tas" "tas" m1) "Dekorasi" "dekorasi" (m1 + 1))
        "Aksesori Rumah" "aksesori-rumah" (m1 + 2)) "Premium" "premium" (m1 + 3)
    have hfixP := upsertByName_establishes_slug
      (upsertCategoryByName (upsertCategoryByName (upsertCategoryByName cats
        "Tas" "tas" m1) "Dekorasi" "dekorasi" (m1 + 1))
        "Aksesori Rumah" "aksesori-rumah" (m1 + 2)) "Premium" "premium" (m1 + 3)
    unfold seedCategoriesByName
    -- lift each established fact to the end state s1
    have presT1 := upsertByName_preserves_name_any _ "Premium" "premium" (m1 + 3) "Tas"
      (upsertByName_preserves_name_any _ "Aksesori Rumah" "aksesori-rumah" (m1 + 2) "Tas"
        (upsertByName_preserves_name_any _ "Dekorasi" "dekorasi" (m1 + 1) "Tas" hpresT))
    have fixT1 := upsertByName_preserves_slug _ "Tas" "tas" "Premium" "premium" (m1 + 3)
      (by decide)
      (upsertByName_preserves_slug _ "Tas" "tas" "Aksesori Rumah" "aksesori-rumah" (m1 + 2)
        (by decide)
        (upsertByName_preserves_slug _ "Tas" "tas" "Dekorasi" "dekorasi" (m1 + 1)
          (by decide) hfixT))
    have presD1 := upsertByName_preserves_name_any _ "Premium" "premium" (m1 + 3) "Dekorasi"
      (upsertByName_preserves_name_any _ "Aksesori Rumah" "aksesori-rumah" (m1 + 2)
        "Dekorasi" hpresD)
    have fixD1 := upsertByName_preserves_slug _ "Dekorasi" "dekorasi" "Premium" "premium"
      (m1 + 3) (by decide)
      (upsertByName_preserves_slug _ "Dekorasi" "dekorasi" "Aksesori Rumah"
        "aksesori-rumah" (m1 + 2) (by decide) hfixD)
    have presA1 := upsertByName_preserves_name_any _ "Premium" "premium" (m1 + 3)
      "Aksesori Rumah" hpresA
    have fixA1 := upsertByName_preserves_slug _ "Aksesori Rumah" "aksesori-rumah"
      "Premium" "premium" (m1 + 3) (by decide) hfixA
    rw [upsertByName_noop _ "Tas" "tas" m2 presT1 fixT1,
        upsertByName_noop _ "Dekorasi" "dekorasi" (m2 + 1) presD1 fixD1,
        upsertByName_noop _ "Aksesori Rumah" "aksesori-rumah" (m2 + 2) presA1 fixA1,
        upsertByName_noop _ "Premium" "premium" (m2 + 3) hpresP hfixP]

/-- Claim C9 is false on the code as deployed: after the timestamped migration
chain runs from an empty store, `products_category_id_fkey` is the inline
NO ACTION constraint from 20250120120002 (the later guarded ON DELETE SET NULL
additions are skipped), so deleting a Category still referenced by a Product
is rejected with a foreign-key violation instead of nulling `category_id`. -/
theorem c9_counterexample :
    composedCategoryFkAction = some .noAction
    ∧ deleteCategory .noAction c9Store 1 = .error .ForeignKeyViolation := by
  exact ⟨rfl, rfl⟩

/-- Claim C9 (amended): under the deployed constraint the delete of a
referenced Category is rejected rather than nulled; deletion never cascades to
Products under either installed action (NO ACTION keeps the product rows
unchanged, SET NULL keeps their number), and the invariant that `category_id`,
when present, references an existing Category is preserved by category
deletion under both actions and by FK-checked product insertion. -/
theorem c9_category_delete_never_cascades_and_fk_holds :
    composedCategoryFkAction = some FkAction.noAction
    ∧ (∀ st cid st', deleteCategory .noAction st cid = .ok st' →
        st'.products = st.products)
    ∧ (∀ st cid st', deleteCategory .setNull st cid = .ok st' →
        st'.products.length = st.products.length)
    ∧ (∀ st cid st', catRefIntact st → deleteCategory .noAction st cid = .ok st' →
        catRefIntact st')
    ∧ (∀ st cid st', catRefIntact st → deleteCategory .setNull st cid = .ok st' →
        catRefIntact st')
    ∧ (∀ st p st', catRefIntact st → insertProductChecked st p = .ok st' →
        catRefIntact st') := by
  refine ⟨rfl, ?_, ?_, ?_, ?_, ?_⟩
  · intro st cid st' h
    simp only [deleteCategory] at h
    split at h
    · exact Except.noConfusion h
    · simp only [Except.ok.injEq] at h
      subst h
      rfl
  · intro st cid st' h
    simp only [deleteCategory] at h
    simp only [Except.ok.injEq] at h
    subst h
    exact List.length_map st.products _
  · intro st cid st' hintact h
    simp only [deleteCategory] at h
    split at h
    · exact Except.noConfusion h
    · rename_i hany
      simp only [Except.ok.injEq] at h
      subst h
      intro p hp cid' hcid'
      obtain ⟨c, hc, hcc⟩ := hintact p hp cid' hcid'
      refine ⟨c, List.mem_filter.mpr ⟨hc, ?_⟩, hcc⟩
      have hne : cid' ≠ cid := by
        intro hcontra
        apply hany
        rw [List.any_eq_true]
        exact ⟨p, hp, by rw [beq_iff_eq, hcid', hcontra]⟩
      rw [Bool.not_eq_true', beq_eq_false_iff_ne]
      rw [hcc]
      exact hne
  · intro st cid st' hintact h
    simp only [deleteCategory] at h
    simp only [Except.ok.injEq] at h
    subst h
    intro p' hp' cid' hcid'
    rw [List.mem_map] at hp'
    obtain ⟨p, hp, hfp⟩ := hp'
    by_cases hc : (p.category_id == some cid) = true
    · rw [if_pos hc] at hfp
      rw [← hfp] at hcid'
      exact Option.noConfusion hcid'
    · rw [if_neg hc] at hfp
      subst hfp
      obtain ⟨c, hcmem, hcc⟩ := hintact p hp cid' hcid'
      refine ⟨c, List.mem_filter.mpr ⟨hcmem, ?_⟩, hcc⟩
      have hne : cid' ≠ cid := by
        intro hcontra
        apply hc
        rw [beq_iff_eq, hcid', hcontra]
      rw [Bool.not_eq_true', beq_eq_false_iff_ne]
      rw [hcc]
      exact hne
  · intro st p st' hintact h
    unfold insertProductChecked at h
    split at h
    · rename_i hnone
      simp only [Except.ok.injEq] at h
      subst h
      intro q hq cid' hcid'
      rcases List.mem_append.mp hq with hmem | hmem
      · exact hintact q hmem cid' hcid'
      · rw [List.mem_singleton] at hmem
        subst hmem
        rw [hnone] at hcid'
        exact Option.noConfusion hcid'
    · rename_i cid hsome
      split at h
      · rename_i hany
        simp only [Except.ok.injEq] at h
        subst h
        intro q hq cid' hcid'
        rcases List.mem_append.mp hq with hmem | hmem
        · exact hintact q hmem cid' hcid'
        · rw [List.mem_singleton] at hmem
          subst hmem
          rw [hsome] at hcid'
          obtain rfl : cid = cid' := Option.some.inj hcid'
          rw [List.any_eq_true] at hany
          obtain ⟨c, hc, hcc⟩ := hany
          exact ⟨c, hc, beq_iff_eq.mp hcc⟩
      · exact Except.noConfusion h

theorem c9_witness :
    catRefIntact ⟨[], [⟨1, "Tas Tote Premium", none, 180000, [], 20, 48, none⟩]⟩ := by
  apply c9_category_delete_never_cascades_and_fk_holds.2.2.2.2.1 c9Store 1
  · intro p hp cid hcid
    simp only [c9Store, List.mem_singleton] at hp
    subst hp
    simp only at hcid
    obtain rfl : (1 : Nat) = cid := Option.some.inj hcid
    exact ⟨⟨1, "Tas", "tas", none⟩, by simp [c9Store], rfl⟩
  · rfl

end Alatacraft
